import Mathlib

/-!
# Verified model of the zogue AST layer

Shallow embedding of `src/ast/ast.go`: the node shapes (`Program`,
`LetStatement`, `ReturnStatement`, `ExpressionStatement`, `Identifier`)
and their two operations `TokenLiteral()` (here `tokenLiteral`) and
`String()` (here `render`, since `String` is taken by the Lean type).
-/

namespace Zogue

/-- Modelled from the spec: the `token` package is not under `src/`; the spec
describes a Token as an immutable pair of an enumerated kind tag and a literal
text span.  The kind tag is kept abstract as text, since `ast.go` only ever
reads the `Literal` field. -/
structure Token where
  kind : String
  literal : String
deriving Repr, DecidableEq

/-- `Identifier` from `ast.go`: `Token` plus the identifier text (Go field
`Value`). -/
structure Identifier where
  token : Token
  value : String
deriving Repr, DecidableEq

/-- The closed set of `Expression` variants present in `ast.go`: only
`Identifier` carries the `expressionNode()` marker. -/
inductive Expression where
  | ident (i : Identifier)
deriving Repr, DecidableEq

/-- `LetStatement` from `ast.go`: the `let` token, the bound `Name`
identifier, and an optional `Value` expression (a nil interface in Go). -/
structure LetStatement where
  token : Token
  name : Identifier
  value : Option Expression
deriving Repr, DecidableEq

/-- `ReturnStatement` from `ast.go`: the `return` token and an optional
`ReturnValue` expression. -/
structure ReturnStatement where
  token : Token
  returnValue : Option Expression
deriving Repr, DecidableEq

/-- `ExpressionStatement` from `ast.go`: the first token of the expression
and the optional wrapped `Expression`. -/
structure ExpressionStatement where
  token : Token
  expression : Option Expression
deriving Repr, DecidableEq

/-- The closed set of `Statement` variants present in `ast.go`: the three
types carrying the `statementNode()` marker. -/
inductive Statement where
  | letS (ls : LetStatement)
  | returnS (rs : ReturnStatement)
  | exprS (es : ExpressionStatement)
deriving Repr, DecidableEq

/-- `Program` from `ast.go`: the root, an ordered sequence of statements. -/
structure Program where
  statements : List Statement
deriving Repr, DecidableEq

/-- `(i *Identifier) TokenLiteral()`: returns `i.Token.Literal`. -/
def Identifier.tokenLiteral (i : Identifier) : String := i.token.literal

/-- `(i *Identifier) String()`: returns `i.Value`. -/
def Identifier.render (i : Identifier) : String := i.value

/-- `TokenLiteral()` dispatched through the `Expression` interface. -/
def Expression.tokenLiteral : Expression → String
  | .ident i => i.tokenLiteral

/-- `String()` dispatched through the `Expression` interface. -/
def Expression.render : Expression → String
  | .ident i => i.render

/-- `(ls *LetStatement) TokenLiteral()`: returns `ls.Token.Literal`. -/
def LetStatement.tokenLiteral (ls : LetStatement) : String := ls.token.literal

/-- `(ls *LetStatement) String()`: buffer writes `TokenLiteral()+" "`, the
rendered name, `" = "`, the rendered value when non-nil, then `";"`. -/
def LetStatement.render (ls : LetStatement) : String :=
  ls.tokenLiteral ++ " " ++ ls.name.render ++ " = " ++
    (match ls.value with
      | some v => v.render
      | none => "") ++ ";"

/-- `(rs *ReturnStatement) TokenLiteral()`: returns `rs.Token.Literal`. -/
def ReturnStatement.tokenLiteral (rs : ReturnStatement) : String :=
  rs.token.literal

/-- `(rs *ReturnStatement) String()`: buffer writes `TokenLiteral()+" "`,
the rendered return value when non-nil, then `";"`.  Note the blank after
the token literal is written unconditionally. -/
def ReturnStatement.render (rs : ReturnStatement) : String :=
  rs.tokenLiteral ++ " " ++
    (match rs.returnValue with
      | some v => v.render
      | none => "") ++ ";"

/-- `(es *ExpressionStatement) TokenLiteral()`: returns `es.Token.Literal`. -/
def ExpressionStatement.tokenLiteral (es : ExpressionStatement) : String :=
  es.token.literal

/-- `(es *ExpressionStatement) String()`: the wrapped expression rendered
when non-nil, otherwise the empty string. -/
def ExpressionStatement.render (es : ExpressionStatement) : String :=
  match es.expression with
  | some e => e.render
  | none => ""

/-- `TokenLiteral()` dispatched through the `Statement` interface. -/
def Statement.tokenLiteral : Statement → String
  | .letS ls => ls.tokenLiteral
  | .returnS rs => rs.tokenLiteral
  | .exprS es => es.tokenLiteral

/-- `String()` dispatched through the `Statement` interface. -/
def Statement.render : Statement → String
  | .letS ls => ls.render
  | .returnS rs => rs.render
  | .exprS es => es.render

/-- `(p *Program) String()`: a `bytes.Buffer` accumulates each statement's
`String()` in order; embedded as a left fold starting from `""`. -/
def Program.render (p : Program) : String :=
  p.statements.foldl (fun acc s => acc ++ s.render) ""

/-- `(p *Program) TokenLiteral()`: the first statement's literal when the
sequence is non-empty, otherwise `""`. -/
def Program.tokenLiteral (p : Program) : String :=
  match p.statements with
  | s :: _ => s.tokenLiteral
  | [] => ""

/-- Every node shape of `ast.go`, gathered under the `Node` interface. -/
inductive Node where
  | program (p : Program)
  | stmt (s : Statement)
  | expr (e : Expression)
deriving Repr, DecidableEq

/-- `String()` dispatched through the `Node` interface. -/
def Node.render : Node → String
  | .program p => p.render
  | .stmt s => s.render
  | .expr e => e.render

/-- `TokenLiteral()` dispatched through the `Node` interface.  For a
`Program` this is `Program.TokenLiteral`. -/
def Node.tokenLiteral : Node → String
  | .program p => p.tokenLiteral
  | .stmt s => s.tokenLiteral
  | .expr e => e.tokenLiteral

/-- A call of `String()` with the receiver threaded through explicitly:
the Go methods never assign to any field of the receiver (the only state
they touch is a local `bytes.Buffer`), so the call returns the text and
the receiver exactly as it was. -/
def Node.renderCall (n : Node) : String × Node := (n.render, n)

/-- The `return` keyword token from the worked examples. -/
def returnTok : Token := { kind := "RETURN", literal := "return" }

/-- The `let` keyword token from the worked examples. -/
def letTok : Token := { kind := "LET", literal := "let" }

/-- An identifier token with the given text, as the lexer produces it. -/
def identTok (s : String) : Token := { kind := "IDENT", literal := s }

/-- The identifier expression `five` from the worked examples. -/
def fiveIdent : Identifier := { token := identTok "five", value := "five" }

/-- The identifier expression `x` from the worked examples. -/
def xIdent : Identifier := { token := identTok "x", value := "x" }

/-- The identifier expression `y` from the worked examples. -/
def yIdent : Identifier := { token := identTok "y", value := "y" }

/-- The identifier expression `foobar` from the worked examples. -/
def foobarIdent : Identifier := { token := identTok "foobar", value := "foobar" }

/-- `return five;` as a node. -/
def returnFive : ReturnStatement :=
  { token := returnTok, returnValue := some (.ident fiveIdent) }

/-- `return` with an absent return value. -/
def returnBare : ReturnStatement := { token := returnTok, returnValue := none }

/-- `let x = y;` as a node. -/
def letXY : LetStatement :=
  { token := letTok, name := xIdent, value := some (.ident yIdent) }

/-- `let x = ` with an absent value. -/
def letXBare : LetStatement := { token := letTok, name := xIdent, value := none }

/-- `foobar` wrapped as an expression statement. -/
def foobarStmt : ExpressionStatement :=
  { token := identTok "foobar", expression := some (.ident foobarIdent) }

/-- An expression statement with an absent expression. -/
def emptyExprStmt : ExpressionStatement :=
  { token := identTok "foobar", expression := none }

theorem foldl_render_eq (l : List Statement) (init : String) :
    l.foldl (fun acc s => acc ++ s.render) init =
      init ++ String.join (l.map Statement.render) := by
  induction l generalizing init with
  | nil => simp [String.join]
  | cons x xs ih =>
      simp only [List.foldl_cons, List.map_cons, ih]
      apply String.ext
      simp [String.data_append, List.append_assoc]

end Zogue

namespace Zogue

/-- Claim C1 counterexample: a `ReturnStatement` whose token literal is
`"return"` and whose return value is absent does NOT render `"return;"` —
the blank after the keyword is written unconditionally, giving
`"return ;"`. -/
theorem returnStatement_absent_not_claimed :
    returnBare.render = "return ;" ∧ returnBare.render ≠ "return;" := by
  constructor
  · rfl
  · decide

/-- Claim C1 (amended): for every `ReturnStatement` with token literal
`"return"`, when the return value is the identifier `five` the rendering is
exactly `"return five;"`, and when the return value is absent the rendering
is exactly `"return ;"` — the value segment is omitted with no placeholder,
but the blank after the keyword remains. -/
theorem returnStatement_render_spec (rs : ReturnStatement)
    (h : rs.token.literal = "return") :
    (∀ i : Identifier, i.value = "five" →
        rs.returnValue = some (.ident i) → rs.render = "return five;") ∧
      (rs.returnValue = none → rs.render = "return ;") := by
  constructor
  · intro i hv hr
    simp [ReturnStatement.render, ReturnStatement.tokenLiteral, h, hr,
      Expression.render, Identifier.render, hv]
  · intro hr
    simp [ReturnStatement.render, ReturnStatement.tokenLiteral, h, hr]

/-- Witness for C1: the amended claim instantiated at concrete return
statements. -/
theorem returnStatement_render_spec_witness :
    returnFive.render = "return five;" ∧ returnBare.render = "return ;" :=
  ⟨(returnStatement_render_spec returnFive rfl).1 fiveIdent rfl rfl,
   (returnStatement_render_spec returnBare rfl).2 rfl⟩

/-- An `Identifier` whose `name` text differs from its token's literal:
both fields are public in `ast.go`, so this value is constructible at the
public interface. -/
def mismatchedIdent : Identifier := { token := identTok "a", value := "b" }

/-- Claim C2 counterexample: `Identifier` is a plain struct with public
fields, so a value with `name` different from `token.literal` is
constructible; on it `render()` and `tokenLiteral()` disagree. -/
theorem identifier_fields_can_disagree :
    mismatchedIdent.render = "b" ∧ mismatchedIdent.tokenLiteral = "a" ∧
      mismatchedIdent.render ≠ mismatchedIdent.tokenLiteral := by
  refine ⟨rfl, rfl, ?_⟩
  decide

/-- Claim C2 (amended): for every `Identifier`, `render()` returns `name`
and `tokenLiteral()` returns `token.literal`; the three texts all agree
exactly when `name = token.literal` holds (which no constructor enforces). -/
theorem identifier_render_agreement (i : Identifier) :
    i.render = i.value ∧ i.tokenLiteral = i.token.literal ∧
      (i.value = i.token.literal →
        i.render = i.tokenLiteral ∧ i.render = i.value) := by
  refine ⟨rfl, rfl, fun h => ⟨?_, rfl⟩⟩
  simp [Identifier.render, Identifier.tokenLiteral, h]

/-- Witness for C2: the agreement instantiated at the identifier `x` whose
name equals its token literal. -/
theorem identifier_render_agreement_witness :
    xIdent.render = xIdent.tokenLiteral :=
  ((identifier_render_agreement xIdent).2.2 rfl).1

/-- Claim C3: `render` and `tokenLiteral` are total over every node value of
the defined shapes — each call produces a text, including on nodes with
absent optional children. -/
theorem render_tokenLiteral_total (n : Node) :
    ∃ s t : String, n.render = s ∧ n.tokenLiteral = t :=
  ⟨n.render, n.tokenLiteral, rfl, rfl⟩

/-- Witness for C3 (the existential instantiated): totality observed on a
let statement with an absent value. -/
theorem render_tokenLiteral_total_witness :
    ∃ s t : String,
      Node.render (.stmt (.letS letXBare)) = s ∧
        Node.tokenLiteral (.stmt (.letS letXBare)) = t :=
  render_tokenLiteral_total (.stmt (.letS letXBare))

/-- Claim C4: a `Program`'s `tokenLiteral()` is its first statement's
literal when the sequence is non-empty and the empty text when it is empty;
the access never goes out of bounds. -/
theorem program_tokenLiteral_spec (p : Program) :
    (∀ s rest, p.statements = s :: rest →
        p.tokenLiteral = s.tokenLiteral) ∧
      (p.statements = [] → p.tokenLiteral = "") := by
  constructor
  · intro s rest h
    simp [Program.tokenLiteral, h]
  · intro h
    simp [Program.tokenLiteral, h]

/-- Witness for C4: both cases observed on concrete programs. -/
theorem program_tokenLiteral_spec_witness :
    Program.tokenLiteral { statements := [.returnS returnBare] } =
        Statement.tokenLiteral (.returnS returnBare) ∧
      Program.tokenLiteral { statements := [] } = "" :=
  ⟨(program_tokenLiteral_spec { statements := [.returnS returnBare] }).1
      (.returnS returnBare) [] rfl,
   (program_tokenLiteral_spec { statements := [] }).2 rfl⟩

/-- Claim C5: the concrete let statement `let x = y;` round-trips through
`render()` exactly. -/
theorem letStatement_roundtrip : letXY.render = "let x = y;" := by
  rfl

/-- Claim C6: a `LetStatement` whose value is absent still renders,
producing the bare `<tokenLiteral> <name> = ` form followed by `;` with the
value text omitted. -/
theorem letStatement_absent_value (ls : LetStatement) (h : ls.value = none) :
    ls.render = ls.tokenLiteral ++ " " ++ ls.name.render ++ " = " ++ ";" := by
  simp [LetStatement.render, h]

/-- Witness for C6: the bare form observed on `let x = ;`. -/
theorem letStatement_absent_value_witness : letXBare.render = "let x = ;" :=
  (letStatement_absent_value letXBare rfl).trans (by rfl)

/-- Claim C7: an `ExpressionStatement` renders exactly its wrapped
expression's rendering when present and the empty text when absent, and the
concrete statement wrapping the identifier `foobar` renders `"foobar"`. -/
theorem expressionStatement_render_spec (es : ExpressionStatement) :
    (∀ e, es.expression = some e → es.render = e.render) ∧
      (es.expression = none → es.render = "") ∧
      (∀ tok : Token, ExpressionStatement.render
        { token := tok, expression := some (.ident foobarIdent) } =
          "foobar") := by
  refine ⟨fun e h => ?_, fun h => ?_, fun tok => rfl⟩
  · simp [ExpressionStatement.render, h]
  · simp [ExpressionStatement.render, h]

/-- Witness for C7: both the delegation case and the absent case observed
on concrete expression statements. -/
theorem expressionStatement_render_spec_witness :
    foobarStmt.render = Expression.render (.ident foobarIdent) ∧
      emptyExprStmt.render = "" :=
  ⟨(expressionStatement_render_spec foobarStmt).1 (.ident foobarIdent) rfl,
   (expressionStatement_render_spec emptyExprStmt).2.1 rfl⟩

/-- Claim C8: a two-statement program renders as the separator-free
concatenation of the two statements' renderings, and in general a program's
rendering is the in-order concatenation of every statement's rendering. -/
theorem program_render_concat :
    (∀ a b : Statement,
        Program.render { statements := [a, b] } = a.render ++ b.render) ∧
      (∀ p : Program,
        p.render = String.join (p.statements.map Statement.render)) := by
  constructor
  · intro a b
    show List.foldl (fun acc s => acc ++ s.render) "" [a, b] =
      a.render ++ b.render
    rw [foldl_render_eq]
    apply String.ext
    simp [String.join]
  · intro p
    show List.foldl (fun acc s => acc ++ s.render) "" p.statements = _
    rw [foldl_render_eq]
    apply String.ext
    simp

/-- Claim C9: `render()` is deterministic and side-effect free — a call
returns the receiver unchanged, and a second call on the node left behind
by the first returns the identical text. -/
theorem render_pure (n : Node) :
    n.renderCall.2 = n ∧ n.renderCall.1 = n.renderCall.2.renderCall.1 :=
  ⟨rfl, rfl⟩

/-- Claim C10: an `ExpressionStatement`'s rendering does not depend on its
token — equal expression fields give identical text under arbitrarily
different tokens — while `tokenLiteral()` reads only the token. -/
theorem expressionStatement_token_independent (t₁ t₂ : Token)
    (e : Option Expression) :
    ExpressionStatement.render { token := t₁, expression := e } =
        ExpressionStatement.render { token := t₂, expression := e } ∧
      (∀ t : Token, ExpressionStatement.tokenLiteral
        { token := t, expression := e } = t.literal) :=
  ⟨rfl, fun _ => rfl⟩

end Zogue
